import Mathlib

/-!
Verification of the paragraph-analysis HTTP service
(`src/services/paragraph-analysis/api.py`).

The handler `analyze_paragraph` is embedded shallowly: the parsed JSON
request body is a value of an inductive `Json` type, Python runtime
errors that Flask turns into 500 responses are modelled with `Except`,
and the two Python operations the handler performs on dynamic values
(`dict.get` / attribute lookup, `len`) are modelled explicitly.
-/

namespace ParagraphAnalysis

/-- A parsed JSON value, as produced by `request.get_json()`.
Numbers are modelled as rationals (the only numeric literals in the
service are `0.5` and the integer indices, both exactly representable). -/
inductive Json where
  | null : Json
  | bool (b : Bool) : Json
  | num (q : ℚ) : Json
  | str (s : String) : Json
  | arr (elems : List Json) : Json
  | obj (fields : List (String × Json)) : Json

/-- Python `len()` applied to a value obtained from parsed JSON:
strings, lists and dicts are sized; `None`, booleans and numbers
have no `len` and raise `TypeError`. -/
def pyLen : Json → Option Nat
  | .str s => some s.length
  | .arr elems => some elems.length
  | .obj fields => some fields.length
  | _ => none

/-- The Python errors the handler can raise (Flask surfaces either as a
framework-level 500 response). -/
inductive PyError where
  | attributeError : PyError
  | typeError : PyError
  deriving DecidableEq

/-- The constant `analysisData` object built for every paragraph
(lines 15–23 of `api.py`). Note the source spells the second key
`readibilityScore`. -/
def analysisData : Json :=
  .obj [("sentimentScore", .num (1/2)),
        ("readibilityScore", .num (1/2)),
        ("topics", .arr [.str "topic1", .str "topic2"]),
        ("summary", .str "summary"),
        ("suggestions", .arr [.str "suggestion1", .str "suggestion2"]),
        ("references", .arr [.str "reference1", .str "reference2"]),
        ("tags", .arr [.str "tag1", .str "tag2"])]

/-- One element of the `analysisResults` list, for loop index `i`. -/
def analysisRecord (i : Nat) : Json :=
  .obj [("index", .num i), ("analysisData", analysisData)]

/-- The response dictionary for `n` paragraphs: the comprehension
`[... for i in range(len(paragraphs))]` wrapped in the outer object. -/
def mkResponse (n : Nat) : Json :=
  .obj [("analysisResults", .arr ((List.range n).map analysisRecord))]

/-- The handler body of `analyze_paragraph` (lines 8–28 of `api.py`),
as a function of the parsed request body:
`data.get('paragraphs', [])` requires `data` to be a dict (otherwise
Python raises `AttributeError` on `.get`); `range(len(paragraphs))`
requires `paragraphs` to be sized (otherwise `len` raises `TypeError`). -/
def analyze_paragraph (body : Json) : Except PyError Json :=
  match body with
  | .obj fields =>
      let paragraphs := (fields.lookup "paragraphs").getD (.arr [])
      match pyLen paragraphs with
      | some n => .ok (mkResponse n)
      | none => .error .typeError
  | _ => .error .attributeError

/-- Field lookup in a JSON object (`none` when the value is not an
object or lacks the key). -/
def getField : Json → String → Option Json
  | .obj fields, key => fields.lookup key
  | _, _ => none

/-- Whether a JSON value is an object (a Python dict, the only values
on which attribute lookup of the method `.get` succeeds). -/
def isObj : Json → Bool
  | .obj _ => true
  | _ => false

/-- A record of the response list as the claims describe it: an object
with exactly the two keys `index` and `analysisData`, in that order. -/
def isWellFormedRecord : Json → Bool
  | .obj [("index", _), ("analysisData", _)] => true
  | _ => false

/-- A well-formed response as the claims describe it: an object with
exactly one top-level key, `analysisResults`, whose value is a list all
of whose elements are well-formed records. -/
def isWellFormedResponse : Json → Bool
  | .obj [("analysisResults", .arr records)] => records.all isWellFormedRecord
  | _ => false

/-- The handler embedded against an arbitrary ambient application state
of any type `S`: the source reads only the parsed request body and
contains no assignment to outer state and no external call, so the
state threads through every call unchanged. -/
def analyze_paragraph_app {S : Type _} (σ : S) (body : Json) :
    Except PyError Json × S :=
  (analyze_paragraph body, σ)

/-! ### Helper lemmas -/

theorem isWellFormedRecord_analysisRecord (i : Nat) :
    isWellFormedRecord (analysisRecord i) = true := rfl

theorem isWellFormedResponse_mkResponse (n : Nat) :
    isWellFormedResponse (mkResponse n) = true := by
  simp only [mkResponse, isWellFormedResponse, List.all_eq_true]
  intro r hr
  obtain ⟨i, _, rfl⟩ := List.mem_map.mp hr
  exact isWellFormedRecord_analysisRecord i

theorem analyze_paragraph_obj_arr
    (fields : List (String × Json)) (ps : List Json)
    (h : fields.lookup "paragraphs" = some (.arr ps)) :
    analyze_paragraph (.obj fields) = .ok (mkResponse ps.length) := by
  simp [analyze_paragraph, h, pyLen]

/-! ### Claim theorems -/

/-- Claim C1: when the request body is an object whose `paragraphs`
field is a list of N elements, the handler succeeds and the
`analysisResults` list has exactly N entries, the entry at position i
carrying `index` equal to i, so records appear in input order. -/
theorem results_indexed_in_input_order
    (fields : List (String × Json)) (ps : List Json)
    (h : fields.lookup "paragraphs" = some (.arr ps)) :
    ∃ records : List Json,
      analyze_paragraph (.obj fields) =
        .ok (.obj [("analysisResults", .arr records)]) ∧
      records.length = ps.length ∧
      ∀ i (hi : i < records.length),
        getField (records.get ⟨i, hi⟩) "index" = some (.num i) := by
  refine ⟨(List.range ps.length).map analysisRecord, ?_, by simp, ?_⟩
  · exact analyze_paragraph_obj_arr fields ps h
  · intro i hi
    simp only [List.get_eq_getElem, List.getElem_map, List.getElem_range]
    rfl

/-- Closed witness for C1 at the two-paragraph body of §8 of the spec. -/
theorem results_indexed_in_input_order_witness :
    ∃ records : List Json,
      analyze_paragraph (.obj [("paragraphs", .arr [.str "A", .str "B"])]) =
        .ok (.obj [("analysisResults", .arr records)]) ∧
      records.length = 2 ∧
      ∀ i (hi : i < records.length),
        getField (records.get ⟨i, hi⟩) "index" = some (.num i) :=
  results_indexed_in_input_order
    [("paragraphs", .arr [.str "A", .str "B"])] [.str "A", .str "B"] rfl

/-- Claim C5: a body without a `paragraphs` field, and the body with
`paragraphs` an empty list, both succeed with an empty
`analysisResults` list. -/
theorem missing_or_empty_paragraphs_yields_empty
    (fields : List (String × Json))
    (h : fields.lookup "paragraphs" = none) :
    analyze_paragraph (.obj fields) =
      .ok (.obj [("analysisResults", .arr [])]) ∧
    analyze_paragraph (.obj [("paragraphs", .arr [])]) =
      .ok (.obj [("analysisResults", .arr [])]) := by
  constructor
  · simp [analyze_paragraph, h, pyLen, mkResponse]
  · rfl

/-- Closed witness for C5 at the empty object body of §8 of the spec. -/
theorem missing_or_empty_paragraphs_yields_empty_witness :
    analyze_paragraph (.obj []) = .ok (.obj [("analysisResults", .arr [])]) ∧
    analyze_paragraph (.obj [("paragraphs", .arr [])]) =
      .ok (.obj [("analysisResults", .arr [])]) :=
  missing_or_empty_paragraphs_yields_empty [] rfl

/-- Claim C7: the handler, embedded against an arbitrary ambient
application state, leaves that state unchanged on every call, and its
result is the pure function of the request body alone. -/
theorem analyze_paragraph_no_side_effects {S : Type _} (σ σ' : S) (body : Json) :
    (analyze_paragraph_app σ body).2 = σ ∧
    (analyze_paragraph_app σ body).1 = analyze_paragraph body ∧
    (analyze_paragraph_app σ body).1 = (analyze_paragraph_app σ' body).1 :=
  ⟨rfl, rfl, rfl⟩

/-- Claim C9: a request body that is valid JSON but not an object (list,
string, number, null or boolean) makes the handler raise an
AttributeError (from `.get` on a non-dict), which surfaces as a
framework-level error response rather than an empty result. -/
theorem non_object_body_raises (body : Json) (h : isObj body = false) :
    analyze_paragraph body = .error .attributeError := by
  cases body <;> simp_all [isObj, analyze_paragraph]

/-- Closed witness for C9 at a JSON-array request body. -/
theorem non_object_body_raises_witness :
    isObj (Json.arr [.str "a"]) = false ∧
    analyze_paragraph (Json.arr [.str "a"]) = .error .attributeError :=
  ⟨rfl, non_object_body_raises (Json.arr [.str "a"]) rfl⟩

/-- Claim C10: every successful response is an object with exactly one
top-level key, `analysisResults`, whose value is a list, each element
of which is an object with exactly the keys `index` and `analysisData`. -/
theorem successful_response_is_well_formed (body r : Json)
    (h : analyze_paragraph body = .ok r) :
    isWellFormedResponse r = true := by
  cases body with
  | obj fields =>
      rw [analyze_paragraph] at h
      rcases hl : pyLen ((fields.lookup "paragraphs").getD (.arr [])) with _ | n <;>
        rw [hl] at h
      · exact absurd h (by simp)
      · obtain rfl : mkResponse n = r := by injection h
        exact isWellFormedResponse_mkResponse n
  | null => exact absurd h (by simp [analyze_paragraph])
  | bool b => exact absurd h (by simp [analyze_paragraph])
  | num q => exact absurd h (by simp [analyze_paragraph])
  | str s => exact absurd h (by simp [analyze_paragraph])
  | arr elems => exact absurd h (by simp [analyze_paragraph])

/-- Closed witness for C10 at the one-paragraph body of §8 of the spec. -/
theorem successful_response_is_well_formed_witness :
    analyze_paragraph (.obj [("paragraphs", .arr [.str "Hello world."])]) =
      .ok (mkResponse 1) ∧
    isWellFormedResponse (mkResponse 1) = true :=
  ⟨rfl, successful_response_is_well_formed
    (.obj [("paragraphs", .arr [.str "Hello world."])]) (mkResponse 1) rfl⟩

/-- Claim C2: for every non-empty input paragraph list, every record's
`analysisData` is one and the same fixed constant, and that constant
carries the enumerated placeholder values: sentimentScore 0.5, topics,
summary, suggestions, references and tags as in the spec's example. -/
theorem analysisData_is_fixed_constant
    (fields : List (String × Json)) (ps : List Json)
    (h : fields.lookup "paragraphs" = some (.arr ps)) (hne : ps ≠ []) :
    ∃ records : List Json,
      analyze_paragraph (.obj fields) =
        .ok (.obj [("analysisResults", .arr records)]) ∧
      records ≠ [] ∧
      (∀ r ∈ records, getField r "analysisData" = some analysisData) ∧
      getField analysisData "sentimentScore" = some (.num (1/2)) ∧
      getField analysisData "topics" = some (.arr [.str "topic1", .str "topic2"]) ∧
      getField analysisData "summary" = some (.str "summary") ∧
      getField analysisData "suggestions" =
        some (.arr [.str "suggestion1", .str "suggestion2"]) ∧
      getField analysisData "references" =
        some (.arr [.str "reference1", .str "reference2"]) ∧
      getField analysisData "tags" = some (.arr [.str "tag1", .str "tag2"]) := by
  refine ⟨(List.range ps.length).map analysisRecord,
    analyze_paragraph_obj_arr fields ps h, ?_, ?_, rfl, rfl, rfl, rfl, rfl, rfl⟩
  · simpa using hne
  · intro r hr
    obtain ⟨i, _, rfl⟩ := List.mem_map.mp hr
    rfl

/-- Closed witness for C2 at the one-paragraph body of §8 of the spec. -/
theorem analysisData_is_fixed_constant_witness :
    ∃ records : List Json,
      analyze_paragraph (.obj [("paragraphs", .arr [.str "Hello world."])]) =
        .ok (.obj [("analysisResults", .arr records)]) ∧
      records ≠ [] ∧
      (∀ r ∈ records, getField r "analysisData" = some analysisData) ∧
      getField analysisData "sentimentScore" = some (.num (1/2)) ∧
      getField analysisData "topics" = some (.arr [.str "topic1", .str "topic2"]) ∧
      getField analysisData "summary" = some (.str "summary") ∧
      getField analysisData "suggestions" =
        some (.arr [.str "suggestion1", .str "suggestion2"]) ∧
      getField analysisData "references" =
        some (.arr [.str "reference1", .str "reference2"]) ∧
      getField analysisData "tags" = some (.arr [.str "tag1", .str "tag2"]) :=
  analysisData_is_fixed_constant [("paragraphs", .arr [.str "Hello world."])]
    [.str "Hello world."] rfl (by simp)

/-- Counterexample to claim C3 as stated: on the one-paragraph body the
record's `analysisData` has NO field named `readabilityScore` — the
source spells the key `readibilityScore` (line 17 of `api.py`). -/
theorem no_readabilityScore_field :
    analyze_paragraph (.obj [("paragraphs", .arr [.str "Hello world."])]) =
      .ok (.obj [("analysisResults", .arr [analysisRecord 0])]) ∧
    getField (analysisRecord 0) "analysisData" = some analysisData ∧
    getField analysisData "readabilityScore" = none :=
  ⟨rfl, rfl, rfl⟩

/-- Claim C3 as amended: each returned `analysisData` carries a field
spelled `readibilityScore` (sic) fixed at 0.5, and no field spelled
`readabilityScore`. -/
theorem readibilityScore_fixed_at_half
    (fields : List (String × Json)) (ps : List Json)
    (h : fields.lookup "paragraphs" = some (.arr ps)) (hne : ps ≠ []) :
    ∃ records : List Json,
      analyze_paragraph (.obj fields) =
        .ok (.obj [("analysisResults", .arr records)]) ∧
      records ≠ [] ∧
      ∀ r ∈ records, ∃ d : Json,
        getField r "analysisData" = some d ∧
        getField d "readibilityScore" = some (.num (1/2)) ∧
        getField d "readabilityScore" = none := by
  refine ⟨(List.range ps.length).map analysisRecord,
    analyze_paragraph_obj_arr fields ps h, by simpa using hne, ?_⟩
  intro r hr
  obtain ⟨i, _, rfl⟩ := List.mem_map.mp hr
  exact ⟨analysisData, rfl, rfl, rfl⟩

/-- Closed witness for the amended C3 at the one-paragraph body. -/
theorem readibilityScore_fixed_at_half_witness :
    ∃ records : List Json,
      analyze_paragraph (.obj [("paragraphs", .arr [.str "Hello world."])]) =
        .ok (.obj [("analysisResults", .arr records)]) ∧
      records ≠ [] ∧
      ∀ r ∈ records, ∃ d : Json,
        getField r "analysisData" = some d ∧
        getField d "readibilityScore" = some (.num (1/2)) ∧
        getField d "readabilityScore" = none :=
  readibilityScore_fixed_at_half [("paragraphs", .arr [.str "Hello world."])]
    [.str "Hello world."] rfl (by simp)

/-- Claim C4: two bodies whose `paragraphs` lists have the same length
get identical responses — the output depends only on the count, never
on content — and every `analysisData` of every successful response,
whatever the body, is the same fixed value. -/
theorem output_depends_only_on_length
    (fs1 fs2 : List (String × Json)) (ps1 ps2 : List Json)
    (h1 : fs1.lookup "paragraphs" = some (.arr ps1))
    (h2 : fs2.lookup "paragraphs" = some (.arr ps2))
    (hlen : ps1.length = ps2.length) :
    analyze_paragraph (.obj fs1) = analyze_paragraph (.obj fs2) ∧
    ∀ (body : Json) (records : List Json), ∀ r ∈ records,
      analyze_paragraph body = .ok (.obj [("analysisResults", .arr records)]) →
      getField r "analysisData" = some analysisData := by
  constructor
  · rw [analyze_paragraph_obj_arr fs1 ps1 h1, analyze_paragraph_obj_arr fs2 ps2 h2,
      hlen]
  · intro body records r hr hok
    cases body with
    | obj fields =>
        rw [analyze_paragraph] at hok
        rcases hl : pyLen ((fields.lookup "paragraphs").getD (.arr [])) with _ | n <;>
          rw [hl] at hok
        · exact absurd hok (by simp)
        · have hresp : mkResponse n = .obj [("analysisResults", .arr records)] := by
            injection hok
          have : (List.range n).map analysisRecord = records := by
            simpa [mkResponse] using hresp
          rw [← this] at hr
          obtain ⟨i, _, rfl⟩ := List.mem_map.mp hr
          rfl
    | null => exact absurd hok (by simp [analyze_paragraph])
    | bool b => exact absurd hok (by simp [analyze_paragraph])
    | num q => exact absurd hok (by simp [analyze_paragraph])
    | str s => exact absurd hok (by simp [analyze_paragraph])
    | arr elems => exact absurd hok (by simp [analyze_paragraph])

/-- Closed witness for C4: same length, different content, identical
responses. -/
theorem output_depends_only_on_length_witness :
    analyze_paragraph (.obj [("paragraphs", .arr [.str "Hello"])]) =
      analyze_paragraph (.obj [("paragraphs", .arr [.str "different text"])]) ∧
    ∀ (body : Json) (records : List Json), ∀ r ∈ records,
      analyze_paragraph body = .ok (.obj [("analysisResults", .arr records)]) →
      getField r "analysisData" = some analysisData :=
  output_depends_only_on_length
    [("paragraphs", .arr [.str "Hello"])]
    [("paragraphs", .arr [.str "different text"])]
    [.str "Hello"] [.str "different text"] rfl rfl rfl

/-- Counterexample to claim C6 as stated: a body whose `paragraphs`
field is the number 1 is a JSON object, yet the handler raises a
TypeError (Python `len(1)`), surfacing as a framework error rather
than a well-formed response. -/
theorem numeric_paragraphs_raises :
    analyze_paragraph (.obj [("paragraphs", .num 1)]) =
      .error .typeError := rfl

/-- Claim C6 as amended: for an object body, a `paragraphs` field that
is absent, or whose value is sized in Python (string, list or object),
yields a well-formed response with no error and no inspection of
content, but an unsized value (null, boolean or number) makes `len`
raise a TypeError. The statement quantifies over the optional lookup
result, so the absent-field case is covered alongside the sized ones. -/
theorem absent_or_sized_paragraphs_ok_unsized_raise
    (fields : List (String × Json)) (ov : Option Json)
    (h : fields.lookup "paragraphs" = ov) :
    ((ov = none ∨ (∃ s, ov = some (.str s)) ∨ (∃ xs, ov = some (.arr xs)) ∨
        (∃ fs, ov = some (.obj fs))) →
      ∃ r : Json, analyze_paragraph (.obj fields) = .ok r ∧
        isWellFormedResponse r = true) ∧
    ((ov = some .null ∨ (∃ b, ov = some (.bool b)) ∨
        (∃ q, ov = some (.num q))) →
      analyze_paragraph (.obj fields) = .error .typeError) := by
  subst h
  constructor
  · rintro (hnone | ⟨s, hs⟩ | ⟨xs, hxs⟩ | ⟨fs, hfs⟩)
    · exact ⟨mkResponse 0, by simp [analyze_paragraph, hnone, pyLen],
        isWellFormedResponse_mkResponse 0⟩
    · exact ⟨mkResponse s.length, by simp [analyze_paragraph, hs, pyLen],
        isWellFormedResponse_mkResponse _⟩
    · exact ⟨mkResponse xs.length, by simp [analyze_paragraph, hxs, pyLen],
        isWellFormedResponse_mkResponse _⟩
    · exact ⟨mkResponse fs.length, by simp [analyze_paragraph, hfs, pyLen],
        isWellFormedResponse_mkResponse _⟩
  · rintro (hn | ⟨b, hb⟩ | ⟨q, hq⟩)
    · simp [analyze_paragraph, hn, pyLen]
    · simp [analyze_paragraph, hb, pyLen]
    · simp [analyze_paragraph, hq, pyLen]

/-- Closed witness for the amended C6, applying the theorem both at a
string-valued `paragraphs` and at a body with the field absent. -/
theorem absent_or_sized_paragraphs_ok_unsized_raise_witness :
    (((some (Json.str "ab") = none ∨
        (∃ s, some (Json.str "ab") = some (Json.str s)) ∨
        (∃ xs, some (Json.str "ab") = some (Json.arr xs)) ∨
        (∃ fs, some (Json.str "ab") = some (Json.obj fs))) →
      ∃ r : Json,
        analyze_paragraph (.obj [("paragraphs", .str "ab")]) = .ok r ∧
        isWellFormedResponse r = true) ∧
    ((some (Json.str "ab") = some Json.null ∨
        (∃ b, some (Json.str "ab") = some (Json.bool b)) ∨
        (∃ q, some (Json.str "ab") = some (Json.num q))) →
      analyze_paragraph (.obj [("paragraphs", .str "ab")]) =
        .error .typeError)) ∧
    (((none : Option Json) = none ∨
        (∃ s, (none : Option Json) = some (Json.str s)) ∨
        (∃ xs, (none : Option Json) = some (Json.arr xs)) ∨
        (∃ fs, (none : Option Json) = some (Json.obj fs))) →
      ∃ r : Json, analyze_paragraph (.obj [("other", .num 1)]) = .ok r ∧
        isWellFormedResponse r = true) :=
  ⟨absent_or_sized_paragraphs_ok_unsized_raise
      [("paragraphs", .str "ab")] (some (.str "ab")) rfl,
    (absent_or_sized_paragraphs_ok_unsized_raise
      [("other", .num 1)] none rfl).1⟩

/-- Claim C8: whenever the `paragraphs` value is sized with Python
length n — a string of n characters, a list of n elements, an object
of n keys — the handler returns exactly n records, because it only
applies `len()` to the field. -/
theorem record_count_is_python_length
    (fields : List (String × Json)) (v : Json) (n : Nat)
    (h : fields.lookup "paragraphs" = some v) (hn : pyLen v = some n) :
    (∃ records : List Json,
      analyze_paragraph (.obj fields) =
        .ok (.obj [("analysisResults", .arr records)]) ∧
      records.length = n) ∧
    (∀ s : String, pyLen (.str s) = some s.length) ∧
    (∀ keyed : List (String × Json), pyLen (.obj keyed) = some keyed.length) := by
  refine ⟨⟨(List.range n).map analysisRecord, ?_, by simp⟩, fun _ => rfl, fun _ => rfl⟩
  simp [analyze_paragraph, h, hn, mkResponse]

/-- Closed witness for C8: `paragraphs` bound to the 3-character string
"abc" yields exactly 3 records. -/
theorem record_count_is_python_length_witness :
    (∃ records : List Json,
      analyze_paragraph (.obj [("paragraphs", .str "abc")]) =
        .ok (.obj [("analysisResults", .arr records)]) ∧
      records.length = 3) ∧
    (∀ s : String, pyLen (.str s) = some s.length) ∧
    (∀ keyed : List (String × Json), pyLen (.obj keyed) = some keyed.length) :=
  record_count_is_python_length [("paragraphs", .str "abc")] (.str "abc") 3 rfl rfl

end ParagraphAnalysis
